import Mathlib

/-!
# CompressIt — a verification development of `src/script.js`

A shallow embedding of the compression/resize orchestration of the
CompressIt image tool: the session state record, the input handlers, the
orchestrator `compressImage`, the derived display metrics and the debounce
wiring, with the platform's decode/encode capabilities as explicit oracles.
JavaScript numbers are modelled as exact integers/rationals (`ℤ`, `ℚ`);
`Math.round` and `parseInt` are embedded explicitly.
-/

namespace CompressIt

/-- JS `Math.round` on an exact rational: the nearest integer, ties toward
`+∞` (so `Math.round (-0.5) = 0`). -/
def jsRound (x : ℚ) : ℤ := ⌊x + 1/2⌋

/-- One character as a digit under radix `b`, the way `parseInt` reads it
(`0`–`9`, then `a`–`z`/`A`–`Z`, rejected when it reaches the radix). -/
def digitVal (b : ℕ) (c : Char) : Option ℕ :=
  let v : Option ℕ :=
    if '0' ≤ c ∧ c ≤ '9' then some (c.toNat - '0'.toNat)
    else if 'a' ≤ c ∧ c ≤ 'z' then some (c.toNat - 'a'.toNat + 10)
    else if 'A' ≤ c ∧ c ≤ 'Z' then some (c.toNat - 'A'.toNat + 10)
    else none
  match v with
  | some d => if d < b then some d else none
  | none => none

/-- The longest digit run under radix `b` at the head of `cs`: accumulated
value and number of digits read. -/
def digitRun (b : ℕ) : List Char → ℕ × ℕ
  | [] => (0, 0)
  | c :: cs =>
    match digitVal b c with
    | some d =>
      let (v, n) := digitRun b cs
      (d * b ^ n + v, n + 1)
    | none => (0, 0)

/-- JS `parseInt(s)` with no radix argument: skip leading whitespace, read an
optional sign, auto-detect a `0x`/`0X` prefix (radix 16, otherwise 10), read
the longest run of digits, `NaN` (`none`) when there is none. -/
def jsParseInt (s : String) : Option ℤ :=
  let cs := s.toList.dropWhile fun c => c = ' ' ∨ c = '\t' ∨ c = '\n' ∨ c = '\r'
  let signed : ℤ × List Char :=
    match cs with
    | '-' :: rest => (-1, rest)
    | '+' :: rest => (1, rest)
    | _ => (1, cs)
  let based : ℕ × List Char :=
    match signed.2 with
    | '0' :: 'x' :: rest => (16, rest)
    | '0' :: 'X' :: rest => (16, rest)
    | _ => (10, signed.2)
  let (v, n) := digitRun based.1 based.2
  if n = 0 then none else some (signed.1 * v)

/-- The source's pervasive idiom `parseInt(v) || fallback` (lines 131–132,
204, 213 of `script.js`): `NaN` and `0` are falsy and fall back; every other
number — negative ones included — is kept. -/
def jsParseIntOr (v : String) (fallback : ℤ) : ℤ :=
  match jsParseInt v with
  | none => fallback
  | some n => if n = 0 then fallback else n

/-- JS `String.prototype.startsWith`. -/
def jsStartsWith (p t : String) : Bool := p.toList.isPrefixOf t.toList

/-- A user-supplied file as the file-acquisition surface hands it over: a
declared media type (`file.type`), a byte size and a display name. -/
structure JsFile where
  mediaType : String
  size : ℕ
  name : String
deriving DecidableEq

/-- A decoded image; only its native pixel dimensions are read by the code. -/
structure JsImage where
  width : ℕ
  height : ℕ
deriving DecidableEq

/-- An encoded byte stream as `canvas.toBlob` would yield it; the program
reads only its size. -/
structure Blob where
  size : ℕ
deriving DecidableEq

/-- The session record `state` (lines 7–15 of `script.js`) together with the
two dimension text fields, whose `.value` strings the code reads and writes
as part of its working state. -/
structure State where
  originalFile : Option JsFile
  originalImage : Option JsImage
  compressedBlob : Option Blob
  quality : ℤ
  outputFormat : String
  aspectRatio : ℚ
  lockAspectRatio : Bool
  widthInput : String
  heightInput : String
deriving DecidableEq

/-- The state at page load (lines 7–15: the literal initializer, with both
dimension fields empty). -/
def initialState : State :=
  { originalFile := none
    originalImage := none
    compressedBlob := none
    quality := 80
    outputFormat := "image/jpeg"
    aspectRatio := 1
    lockAspectRatio := true
    widthInput := ""
    heightInput := "" }

/-- The arguments `compressImage` assembles for the external encode capability
(`canvas.toBlob` at line 166, fed by lines 131–153): the effective dimensions
read from the input fields with `|| img.width` / `|| img.height` fallbacks,
the stored format string, and `state.quality / 100` — replaced by `undefined`
(`none`) when the selected format is PNG (lines 149–153). -/
structure EncodeArgs where
  width : ℤ
  height : ℤ
  format : String
  quality : Option ℚ
deriving DecidableEq

/-- The error kinds the spec names for this code. -/
inductive Err where
  | notAnImage
  | encodeFailed
deriving DecidableEq

/-- Lines 126–153 of `compressImage`, as a function of the state and the
loaded image. -/
def encodeArgsOf (s : State) (img : JsImage) : EncodeArgs :=
  { width := jsParseIntOr s.widthInput img.width
    height := jsParseIntOr s.heightInput img.height
    format := s.outputFormat
    quality :=
      if s.outputFormat = "image/png" then none
      else some ((s.quality : ℚ) / 100) }

/-- `compressImage` (lines 123–167), with the external encode capability as an
explicit oracle. Returns the updated state and what the step yielded: `none`
when no image is loaded (the early return at line 124), `some (ok blob)` when
the callback receives data and stores it (lines 156–164), and
`some (error encodeFailed)` when the callback receives `null`, in which case
the body of the callback is skipped and the stored result is left alone. -/
def compressImage (encode : EncodeArgs → Option Blob) (s : State) :
    State × Option (Except Err Blob) :=
  match s.originalImage with
  | none => (s, none)
  | some img =>
    match encode (encodeArgsOf s img) with
    | some blob => ({ s with compressedBlob := some blob }, some (.ok blob))
    | none => (s, some (.error .encodeFailed))

/-- `savedPercent` of `updateCompressedInfo` (line 177):
`Math.round((1 - compressedSize / originalSize) * 100)`. -/
def savedPercent (originalSize compressedSize : ℕ) : ℤ :=
  jsRound ((1 - (compressedSize : ℚ) / originalSize) * 100)

/-- The savings badge text (line 180): `-p%` when `savedPercent >= 0`, else
`+|p|%`. -/
def savingsText (originalSize compressedSize : ℕ) : String :=
  if 0 ≤ savedPercent originalSize compressedSize then
    "-" ++ toString (savedPercent originalSize compressedSize) ++ "%"
  else "+" ++ toString (savedPercent originalSize compressedSize).natAbs ++ "%"

/-- Modelled from the spec's words only (the spec asks for
"round-half-away-from-zero"); used to compare the spec's stated rounding with
the code's `Math.round`. -/
def roundHalfAwayFromZero (x : ℚ) : ℤ :=
  if 0 ≤ x then ⌊x + 1/2⌋ else -⌊-x + 1/2⌋

/-- The unit index `Math.floor(Math.log(bytes) / Math.log(1024))` of
`formatFileSize` (line 188), computed exactly: `Nat.log 1024 bytes` is the
largest `i` with `1024 ^ i ≤ bytes` (for `bytes ≥ 1`). -/
def sizeUnitIndex (bytes : ℕ) : ℕ := Nat.log 1024 bytes

/-- `(bytes / 1024 ** i).toFixed(2)` as a count of hundredths: the scaled
value rounded to two decimals, ties upward. -/
def hundredthsOf (bytes i : ℕ) : ℕ := (jsRound ((bytes : ℚ) / 1024 ^ i * 100)).toNat

/-- Rendering of `parseFloat(x.toFixed(2))`: hundredths printed with the
trailing zeros of the two-decimal form dropped. -/
def renderHundredths (n : ℕ) : String :=
  if n % 100 = 0 then toString (n / 100)
  else if n % 10 = 0 then toString (n / 100) ++ "." ++ toString (n / 10 % 10)
  else toString (n / 100) ++ "." ++ toString (n / 10 % 10) ++ toString (n % 10)

/-- `formatFileSize` (lines 184–190). The logarithm and the two-decimal
rounding are computed in exact arithmetic in place of `Math.log` and float
division; `sizes[i]` past the end of the list is JS `undefined`. -/
def formatFileSize (bytes : ℕ) : String :=
  if bytes = 0 then "0 Bytes"
  else
    renderHundredths (hundredthsOf bytes (sizeUnitIndex bytes)) ++ " " ++
      ["Bytes", "KB", "MB", "GB"].getD (sizeUnitIndex bytes) "undefined"

/-- `handleFile` (lines 85–120), with the platform's decode step as an oracle
supplying the image the file decodes to. A non-image media type alerts and
returns with nothing touched (lines 86–89, surfaced here as
`Error notAnImage`); otherwise the file is stored, the decoded image and its
aspect ratio are recorded, the dimension fields are filled with the native
dimensions (lines 91–104), and an initial `compressImage` runs (line 115).
Nothing else of the state — in particular `quality`, `outputFormat`,
`lockAspectRatio` — is written. -/
def handleFile (encode : EncodeArgs → Option Blob) (s : State)
    (file : JsFile) (decoded : JsImage) : State × Except Err Unit :=
  if jsStartsWith "image/" file.mediaType = false then (s, .error .notAnImage)
  else
    ((compressImage encode
        { s with
          originalFile := some file
          originalImage := some decoded
          aspectRatio := (decoded.width : ℚ) / decoded.height
          widthInput := toString decoded.width
          heightInput := toString decoded.height }).1,
      .ok ())

/-- The width field's `input` handler (lines 202–208): with the aspect lock on
and an image loaded, the height field is set to
`Math.round(width / state.aspectRatio)`, where `width` is the parsed field
value with `|| originalImage.width` fallback. (The debounced `compressImage`
the handler then schedules is modelled separately with the timer model.) -/
def widthInputHandler (s : State) : State :=
  match s.originalImage with
  | some img =>
    if s.lockAspectRatio then
      { s with
        heightInput :=
          toString (jsRound ((jsParseIntOr s.widthInput img.width : ℚ) / s.aspectRatio)) }
    else s
  | none => s

/-- `resetCompressor` (lines 258–284): clears the file, image and blob,
restores quality 80 and JPEG, and empties the dimension fields. It writes
neither `state.aspectRatio` nor `state.lockAspectRatio`. -/
def resetCompressor (s : State) : State :=
  { s with
    originalFile := none
    originalImage := none
    compressedBlob := none
    quality := 80
    outputFormat := "image/jpeg"
    widthInput := ""
    heightInput := "" }

/-- `name.replace(/\.[^/.]+$/, '')` (line 246): drop a final dot-extension —
a nonempty run of characters other than `.` and `/` preceded by a `.` at the
end of the name. -/
def stripExtension (name : String) : String :=
  let rs := name.toList.reverse
  let ext := rs.takeWhile fun c => c ≠ '.' ∧ c ≠ '/'
  if 0 < ext.length ∧ (rs.drop ext.length).head? = some '.' then
    String.mk (rs.drop (ext.length + 1)).reverse
  else name

/-- What the download surface is offered: a filename and the byte stream. -/
structure DownloadAction where
  filename : String
  blob : Blob
deriving DecidableEq

/-- `downloadCompressedImage` (lines 242–255): with no stored blob it returns
at once (line 243) and nothing happens; otherwise the stored blob is offered
under `<nameWithoutExtension>_compressed.<ext>` with the extension taken from
`outputFormat.split('/')[1]`. The session state itself is returned unwritten:
the function only reads it. (A stored blob always comes paired with a stored
file; the unreachable `some blob, none` row is mapped to no action.) -/
def downloadCompressedImage (s : State) : State × Option DownloadAction :=
  match s.compressedBlob, s.originalFile with
  | some blob, some f =>
    (s, some
      { filename :=
          stripExtension f.name ++ "_compressed." ++
            (s.outputFormat.splitOn "/").getD 1 "undefined"
        blob := blob })
  | _, _ => (s, none)

/-- The debounce wiring of lines 195–199 (and 313–323): the handler runs
`debounce(compressImage, 100)()`, building a fresh closure at every event, so
the closure's `timeout` variable is still `undefined` when `clearTimeout`
runs; no earlier timer is ever cancelled and each event leaves one more timer
pending. One slider `input` event stores the parsed slider value (line 196)
and adds that pending timer. -/
def qualityInputEvent (sq : State × ℕ) (q : ℤ) : State × ℕ :=
  ({ sq.1 with quality := q }, sq.2 + 1)

/-- A burst of slider events inside one quiet window: the state and the
number of pending `compressImage` timers after the events. -/
def qualityBurst (s : State) (qs : List ℤ) : State × ℕ :=
  qs.foldl qualityInputEvent (s, 0)

/-- The quiet window elapsing after a burst: the `n` pending timers fire in
order, each running `compressImage` on the state as of its firing time.
Returns the final state and the encode-capability argument lists of the
invocations actually performed (none for a firing with no loaded image). -/
def fireTimers (encode : EncodeArgs → Option Blob) : ℕ → State → State × List EncodeArgs
  | 0, s => (s, [])
  | n + 1, s =>
    let now : List EncodeArgs :=
      match s.originalImage with
      | some img => [encodeArgsOf s img]
      | none => []
    let s1 := (compressImage encode s).1
    let (s2, rest) := fireTimers encode n s1
    (s2, now ++ rest)

/-- A full quiet-window cycle: the slider events of the burst, then every
pending timer firing. -/
def qualityBurstEncodes (encode : EncodeArgs → Option Blob) (s : State)
    (qs : List ℤ) : State × List EncodeArgs :=
  let (s1, n) := qualityBurst s qs
  fireTimers encode n s1

/-! ## Helper lemmas -/

/-- `compressImage` writes nothing but `compressedBlob`: whatever the oracle
answers, the rest of the state comes back as it went in. -/
lemma compressImage_frame (encode : EncodeArgs → Option Blob) (s : State) :
    ∃ cb, (compressImage encode s).1 = { s with compressedBlob := cb } := by
  obtain ⟨f, i, cb0, q, fmt, ar, lk, wi, hi⟩ := s
  cases i with
  | none => exact ⟨cb0, rfl⟩
  | some img =>
    cases he : encode (encodeArgsOf ⟨f, some img, cb0, q, fmt, ar, lk, wi, hi⟩ img) with
    | none => exact ⟨cb0, by simp [compressImage, he]⟩
    | some blob => exact ⟨some blob, by simp [compressImage, he]⟩

lemma compressImage_originalFile (encode : EncodeArgs → Option Blob) (s : State) :
    ((compressImage encode s).1).originalFile = s.originalFile := by
  obtain ⟨cb, hc⟩ := compressImage_frame encode s
  rw [hc]

lemma compressImage_originalImage (encode : EncodeArgs → Option Blob) (s : State) :
    ((compressImage encode s).1).originalImage = s.originalImage := by
  obtain ⟨cb, hc⟩ := compressImage_frame encode s
  rw [hc]

lemma compressImage_quality (encode : EncodeArgs → Option Blob) (s : State) :
    ((compressImage encode s).1).quality = s.quality := by
  obtain ⟨cb, hc⟩ := compressImage_frame encode s
  rw [hc]

lemma compressImage_outputFormat (encode : EncodeArgs → Option Blob) (s : State) :
    ((compressImage encode s).1).outputFormat = s.outputFormat := by
  obtain ⟨cb, hc⟩ := compressImage_frame encode s
  rw [hc]

lemma compressImage_lock (encode : EncodeArgs → Option Blob) (s : State) :
    ((compressImage encode s).1).lockAspectRatio = s.lockAspectRatio := by
  obtain ⟨cb, hc⟩ := compressImage_frame encode s
  rw [hc]

lemma compressImage_widthInput (encode : EncodeArgs → Option Blob) (s : State) :
    ((compressImage encode s).1).widthInput = s.widthInput := by
  obtain ⟨cb, hc⟩ := compressImage_frame encode s
  rw [hc]

lemma compressImage_heightInput (encode : EncodeArgs → Option Blob) (s : State) :
    ((compressImage encode s).1).heightInput = s.heightInput := by
  obtain ⟨cb, hc⟩ := compressImage_frame encode s
  rw [hc]

/-- `Nat.log 1024 1536 = 1`. -/
lemma sizeUnitIndex_1536 : sizeUnitIndex 1536 = 1 :=
  Nat.log_eq_of_pow_le_of_lt_pow (by norm_num) (by norm_num)

/-- `Nat.log 1024 1048576 = 2`. -/
lemma sizeUnitIndex_1048576 : sizeUnitIndex 1048576 = 2 :=
  Nat.log_eq_of_pow_le_of_lt_pow (by norm_num) (by norm_num)

lemma hundredthsOf_1536 : hundredthsOf 1536 1 = 150 := by
  unfold hundredthsOf jsRound
  norm_num
  decide

lemma hundredthsOf_1048576 : hundredthsOf 1048576 2 = 100 := by
  unfold hundredthsOf jsRound
  norm_num
  decide

/-! ## The claims -/

/-- C9: the file-size formatting function maps 0 bytes to `"0 Bytes"`,
1536 bytes to `"1.5 KB"`, and 1048576 bytes to `"1 MB"`. -/
theorem formatFileSize_examples :
    formatFileSize 0 = "0 Bytes" ∧ formatFileSize 1536 = "1.5 KB" ∧
      formatFileSize 1048576 = "1 MB" := by
  refine ⟨rfl, ?_, ?_⟩
  · show formatFileSize 1536 = "1.5 KB"
    unfold formatFileSize
    rw [if_neg (by norm_num), sizeUnitIndex_1536, hundredthsOf_1536]
    decide
  · show formatFileSize 1048576 = "1 MB"
    unfold formatFileSize
    rw [if_neg (by norm_num), sizeUnitIndex_1048576, hundredthsOf_1048576]
    decide

/-- C4 counterexample: the code rounds the savings percentage with
`Math.round` (ties toward `+∞`), not half-away-from-zero: at source size 200
and encoded size 201 the percentage is exactly `-0.5`, the code displays `0`,
half-away-from-zero demands `-1`. -/
theorem savingsPercent_not_half_away_from_zero :
    savedPercent 200 201 = 0 ∧
      roundHalfAwayFromZero ((1 - (201 : ℚ) / 200) * 100) = -1 ∧
      savedPercent 200 201 ≠ roundHalfAwayFromZero ((1 - (201 : ℚ) / 200) * 100) := by
  have h1 : savedPercent 200 201 = 0 := by
    unfold savedPercent jsRound
    norm_num
  have h2 : roundHalfAwayFromZero ((1 - (201 : ℚ) / 200) * 100) = -1 := by
    unfold roundHalfAwayFromZero
    rw [if_neg (by norm_num)]
    norm_num
  refine ⟨h1, h2, ?_⟩
  rw [h1, h2]
  decide

/-- C4 (amended): for every source size `S > 0` and encoded size `E`,
`savingsPercent` is `(1 - E/S) * 100` rounded to the nearest integer with
ties toward `+∞` (JS `Math.round`); in particular `S = 1000000`, `E = 750000`
gives 25 shown as the reduction `-25%`, and `E = 1200000` gives `-20` shown
as the increase `+20%`. -/
theorem savingsPercent_half_up_examples (S E : ℕ) (hS : 0 < S) :
    ((savedPercent S E : ℚ) ≤ (1 - (E : ℚ) / S) * 100 + 1/2 ∧
      (1 - (E : ℚ) / S) * 100 - 1/2 < (savedPercent S E : ℚ)) ∧
    savedPercent 1000000 750000 = 25 ∧ savingsText 1000000 750000 = "-25%" ∧
    savedPercent 1000000 1200000 = -20 ∧ savingsText 1000000 1200000 = "+20%" := by
  have h25 : savedPercent 1000000 750000 = 25 := by
    unfold savedPercent jsRound
    norm_num
  have h20 : savedPercent 1000000 1200000 = -20 := by
    unfold savedPercent jsRound
    norm_num
  refine ⟨⟨?_, ?_⟩, h25, ?_, h20, ?_⟩
  · unfold savedPercent jsRound
    exact Int.floor_le _
  · unfold savedPercent jsRound
    have h := Int.sub_one_lt_floor ((1 - (E : ℚ) / S) * 100 + 1/2)
    linarith
  · unfold savingsText
    rw [h25]
    decide
  · unfold savingsText
    rw [h20]
    decide

/-- C4 witness: the theorem applied at the concrete sizes of the claim. -/
theorem savingsPercent_half_up_examples_witness :
    savedPercent 1000000 750000 = 25 ∧ savingsText 1000000 1200000 = "+20%" :=
  ⟨(savingsPercent_half_up_examples 1000000 750000 (by decide)).2.1,
   (savingsPercent_half_up_examples 1000000 1200000 (by decide)).2.2.2.2⟩

/-- C5: whenever the selected format is PNG, the arguments handed to the
external encode capability carry no quality (`undefined`), and the
`compressImage` call leaves `state.quality` unchanged. -/
theorem png_encode_omits_quality (encode : EncodeArgs → Option Blob) (s : State)
    (img : JsImage) (h1 : s.originalImage = some img)
    (h2 : s.outputFormat = "image/png") :
    (encodeArgsOf s img).quality = none ∧
      ((compressImage encode s).1).quality = s.quality := by
  refine ⟨?_, compressImage_quality encode s⟩
  simp [encodeArgsOf, h2]

/-- A loaded session with PNG selected, for the C5 witness. -/
def pngState : State :=
  { initialState with
      originalFile := some { mediaType := "image/png", size := 1000, name := "p.png" }
      originalImage := some { width := 10, height := 10 }
      outputFormat := "image/png"
      widthInput := "10"
      heightInput := "10" }

/-- C5 witness: the theorem at a concrete PNG-selected state. -/
theorem png_encode_omits_quality_witness :
    (encodeArgsOf pngState { width := 10, height := 10 }).quality = none ∧
      ((compressImage (fun _ => some { size := 1 }) pngState).1).quality
        = pngState.quality :=
  png_encode_omits_quality (fun _ => some { size := 1 }) pngState
    { width := 10, height := 10 } rfl rfl

/-- C6: when the encode capability yields no data, `compressImage` surfaces
the encode failure and returns the state exactly as it was — in particular a
previously stored `compressedBlob` survives with no field overwritten. -/
theorem encodeFailed_keeps_prior_result (encode : EncodeArgs → Option Blob)
    (s : State) (img : JsImage) (b0 : Blob)
    (h1 : s.originalImage = some img) (hb : s.compressedBlob = some b0)
    (he : encode (encodeArgsOf s img) = none) :
    compressImage encode s = (s, some (.error .encodeFailed)) := by
  simp [compressImage, h1, he]

/-- A loaded session holding a prior encoded result, for the C6 witness. -/
def failState : State :=
  { initialState with
      originalFile := some { mediaType := "image/jpeg", size := 1000, name := "f.jpg" }
      originalImage := some { width := 8, height := 8 }
      compressedBlob := some { size := 777 }
      widthInput := "8"
      heightInput := "8" }

/-- C6 witness: the theorem at a concrete state, with an oracle that fails. -/
theorem encodeFailed_keeps_prior_result_witness :
    compressImage (fun _ => none) failState
      = (failState, some (.error .encodeFailed)) :=
  encodeFailed_keeps_prior_result (fun _ => none) failState
    { width := 8, height := 8 } { size := 777 } rfl rfl rfl

/-- C7: a file whose declared media type does not start with `image/` is
rejected with the not-an-image error and the whole session state — prior
source, prior result, every field — is returned untouched. -/
theorem nonImage_rejected_state_unchanged (encode : EncodeArgs → Option Blob)
    (s : State) (f : JsFile) (dec : JsImage)
    (h : jsStartsWith "image/" f.mediaType = false) :
    handleFile encode s f dec = (s, .error .notAnImage) := by
  unfold handleFile
  rw [h]
  simp

/-- A non-image upload, for the C7 witness. -/
def textFile : JsFile := { mediaType := "text/plain", size := 5, name := "a.txt" }

/-- C7 witness: the theorem at a concrete non-image file over a session that
already holds a loaded image and a result. -/
theorem nonImage_rejected_state_unchanged_witness :
    handleFile (fun _ => none) failState textFile { width := 1, height := 1 }
      = (failState, .error .notAnImage) :=
  nonImage_rejected_state_unchanged (fun _ => none) failState textFile
    { width := 1, height := 1 } (by decide)

/-- C10: with no stored encoded result the download handler is a no-op — it
offers nothing to the download surface and returns the state unchanged. -/
theorem download_without_result_noop (s : State) (h : s.compressedBlob = none) :
    downloadCompressedImage s = (s, none) := by
  obtain ⟨f, i, cb, q, fmt, ar, lk, wi, hi⟩ := s
  have hcb : cb = none := h
  subst hcb
  cases f <;> rfl

/-- C10 witness: the theorem at the initial (nothing loaded) state. -/
theorem download_without_result_noop_witness :
    downloadCompressedImage initialState = (initialState, none) :=
  download_without_result_noop initialState rfl

/-- An encode oracle that always succeeds, for concrete runs. -/
def someEncode : EncodeArgs → Option Blob := fun _ => some { size := 123456 }

/-- A freshly loaded 100×100 JPEG session, for the C1 run. -/
def loadedState : State :=
  { originalFile := some { mediaType := "image/jpeg", size := 1000000, name := "photo.jpg" }
    originalImage := some { width := 100, height := 100 }
    compressedBlob := none
    quality := 80
    outputFormat := "image/jpeg"
    aspectRatio := 1
    lockAspectRatio := true
    widthInput := "100"
    heightInput := "100" }

/-- C1: three rapid `setQuality` events (90, 85, 80) inside one quiet window
do NOT coalesce to a single encode. Each event evaluates
`debounce(compressImage, 100)()` on a fresh closure, cancelling nothing, so
three timers fire and `compressImage` — and with it the external encode —
runs three times; every invocation reads the final `quality = 80`
(`80 / 100` as the capability's quality argument). This refutes the claimed
"exactly one encode invocation" while confirming the last-value part. -/
theorem threeRapidSetQuality_threeEncodes :
    ((qualityBurstEncodes someEncode loadedState [90, 85, 80]).2).map EncodeArgs.quality
        = [some ((80 : ℚ) / 100), some ((80 : ℚ) / 100), some ((80 : ℚ) / 100)] ∧
      ((qualityBurstEncodes someEncode loadedState [90, 85, 80]).2).length = 3 ∧
      ((qualityBurstEncodes someEncode loadedState [90, 85, 80]).2).length ≠ 1 := by
  have h : (qualityBurstEncodes someEncode loadedState [90, 85, 80]).2
      = List.replicate 3 (encodeArgsOf { loadedState with quality := 80 }
          { width := 100, height := 100 }) := by
    simp [qualityBurstEncodes, qualityBurst, qualityInputEvent, fireTimers,
      compressImage, someEncode, loadedState, encodeArgsOf, List.replicate]
  rw [h]
  refine ⟨?_, by simp, by simp⟩
  norm_num [encodeArgsOf, loadedState, List.replicate,
    show ("image/jpeg" : String) ≠ "image/png" from by decide]

/-- A loaded 3×1 image with the lock on and `1` typed into the width field,
for the C2 counterexample. -/
def wideState : State :=
  { initialState with
      originalFile := some { mediaType := "image/jpeg", size := 100, name := "w.jpg" }
      originalImage := some { width := 3, height := 1 }
      aspectRatio := ((3 : ℕ) : ℚ) / ((1 : ℕ) : ℚ)
      widthInput := "1"
      heightInput := "1" }

/-- C2 counterexample: on a 3×1 image with the aspect lock on, setting target
width 1 writes `Math.round(1 / 3) = 0` into the height field — the claimed
"never 0 for any w ≥ 1" fails. -/
theorem lockedHeight_zero_on_wide_image :
    (widthInputHandler wideState).heightInput = "0" ∧
      jsRound ((1 : ℚ) / ((3 : ℚ) / 1)) = 0 := by
  constructor
  · show toString (jsRound ((jsParseIntOr "1" ((3 : ℕ) : ℤ) : ℚ)
        / (((3 : ℕ) : ℚ) / ((1 : ℕ) : ℚ)))) = "0"
    rw [show jsParseIntOr "1" ((3 : ℕ) : ℤ) = 1 from by decide]
    rw [show jsRound ((((1 : ℤ)) : ℚ) / (((3 : ℕ) : ℚ) / ((1 : ℕ) : ℚ))) = 0 from by
      unfold jsRound
      norm_num]
    decide
  · unfold jsRound
    norm_num

/-- C2 (amended): with the aspect lock on, setting target width `w` on a
source of native size `(W0, H0)` writes `round(w / (W0 / H0))` (nearest
integer, ties toward `+∞`) into the height field; that value is 0 exactly
when `2 * w * H0 < W0`, so a height of 0 does occur for `w ≥ 1` on
sufficiently wide images, and is ≥ 1 otherwise. -/
theorem setTargetWidth_locked_height (s : State) (img : JsImage) (w : ℤ)
    (h1 : s.originalImage = some img) (h2 : s.lockAspectRatio = true)
    (h3 : s.aspectRatio = (img.width : ℚ) / img.height)
    (h4 : jsParseInt s.widthInput = some w) (h5 : 0 < w)
    (hW : 0 < img.width) (hH : 0 < img.height) :
    (widthInputHandler s).heightInput
        = toString (jsRound ((w : ℚ) / ((img.width : ℚ) / img.height))) ∧
      (jsRound ((w : ℚ) / ((img.width : ℚ) / img.height)) = 0 ↔
        2 * w * (img.height : ℤ) < (img.width : ℤ)) := by
  have hW' : (0 : ℚ) < img.width := by exact_mod_cast hW
  have hH' : (0 : ℚ) < img.height := by exact_mod_cast hH
  have hw' : (0 : ℚ) < (w : ℚ) := by exact_mod_cast h5
  have hpi : jsParseIntOr s.widthInput img.width = w := by
    unfold jsParseIntOr
    rw [h4]
    show (if w = 0 then (img.width : ℤ) else w) = w
    rw [if_neg h5.ne']
  have hx : (w : ℚ) / ((img.width : ℚ) / img.height)
      = (w : ℚ) * img.height / img.width := by
    field_simp
  constructor
  · simp [widthInputHandler, h1, h2, hpi, h3]
  · rw [hx]
    unfold jsRound
    rw [Int.floor_eq_zero_iff]
    simp only [Set.mem_Ico]
    constructor
    · rintro ⟨-, hlt⟩
      have hlt2 : (w : ℚ) * img.height / img.width < 1 / 2 := by linarith
      rw [div_lt_iff₀ hW'] at hlt2
      have hq2 : ((2 * w * img.height : ℤ) : ℚ) < ((img.width : ℤ) : ℚ) := by
        push_cast
        linarith
      exact_mod_cast hq2
    · intro hlt
      have hq : ((2 * w * img.height : ℤ) : ℚ) < ((img.width : ℤ) : ℚ) := by
        exact_mod_cast hlt
      have hq2 : (w : ℚ) * img.height / img.width < 1 / 2 := by
        rw [div_lt_iff₀ hW']
        push_cast at hq
        linarith
      have hq3 : 0 ≤ (w : ℚ) * img.height / img.width :=
        div_nonneg (mul_nonneg hw'.le hH'.le) hW'.le
      constructor
      · linarith
      · linarith

/-- A loaded 4×3 image with `2` typed into the width field, for the C2
witness. -/
def c2State : State :=
  { initialState with
      originalFile := some { mediaType := "image/jpeg", size := 60, name := "s.jpg" }
      originalImage := some { width := 4, height := 3 }
      aspectRatio := ((4 : ℕ) : ℚ) / ((3 : ℕ) : ℚ)
      widthInput := "2"
      heightInput := "3" }

/-- C2 witness: the theorem at a concrete 4×3 image and width 2. -/
theorem setTargetWidth_locked_height_witness :
    (widthInputHandler c2State).heightInput
        = toString (jsRound (((2 : ℤ) : ℚ) / (((4 : ℕ) : ℚ) / ((3 : ℕ) : ℚ)))) ∧
      (jsRound (((2 : ℤ) : ℚ) / (((4 : ℕ) : ℚ) / ((3 : ℕ) : ℚ))) = 0 ↔
        2 * (2 : ℤ) * ((3 : ℕ) : ℤ) < ((4 : ℕ) : ℤ)) :=
  setTargetWidth_locked_height c2State { width := 4, height := 3 } 2
    rfl rfl rfl (by decide) (by decide) (by decide) (by decide)

/-- A session with quality 30 and WebP selected, holding an older source and
result, for the C3 counterexample. -/
def webpPriorState : State :=
  { originalFile := some { mediaType := "image/jpeg", size := 500, name := "old.jpg" }
    originalImage := some { width := 10, height := 10 }
    compressedBlob := some { size := 400 }
    quality := 30
    outputFormat := "image/webp"
    aspectRatio := 1
    lockAspectRatio := true
    widthInput := "10"
    heightInput := "10" }

/-- The next file the user loads in the C3 counterexample. -/
def newImageFile : JsFile := { mediaType := "image/jpeg", size := 800, name := "new.jpg" }

/-- C3 counterexample: a successful load of a new image over a session with
quality 30 and WebP selected keeps quality 30 and format WebP — `handleFile`
resets neither to the claimed defaults (80, jpeg). And the prior
EncodedResult is not discarded by the load either: when the initial encode
the load triggers fails, the load still succeeds (the new source is in
place), yet the old stored blob of size 400 is still there. -/
theorem loadSource_keeps_prior_quality :
    ((handleFile someEncode webpPriorState newImageFile
          { width := 20, height := 20 }).2 = .ok ()) ∧
      ((handleFile someEncode webpPriorState newImageFile
          { width := 20, height := 20 }).1).quality = 30 ∧
      ((handleFile someEncode webpPriorState newImageFile
          { width := 20, height := 20 }).1).outputFormat = "image/webp" ∧
      ((30 : ℤ) ≠ 80) ∧
      ((handleFile (fun _ => none) webpPriorState newImageFile
          { width := 20, height := 20 }).2 = .ok ()) ∧
      ((handleFile (fun _ => none) webpPriorState newImageFile
          { width := 20, height := 20 }).1).originalImage
          = some { width := 20, height := 20 } ∧
      ((handleFile (fun _ => none) webpPriorState newImageFile
          { width := 20, height := 20 }).1).compressedBlob = some { size := 400 } ∧
      (some { size := 400 } : Option Blob) ≠ none := by
  refine ⟨?_, ?_, ?_, by decide, ?_, ?_, ?_, by decide⟩
  · unfold handleFile
    rw [if_neg (by decide)]
  · unfold handleFile
    rw [if_neg (by decide)]
    rw [compressImage_quality]
    rfl
  · unfold handleFile
    rw [if_neg (by decide)]
    rw [compressImage_outputFormat]
    rfl
  · unfold handleFile
    rw [if_neg (by decide)]
  · unfold handleFile
    rw [if_neg (by decide)]
    rw [compressImage_originalImage]
  · unfold handleFile
    rw [if_neg (by decide)]
    simp [compressImage, webpPriorState]

/-- C3 (amended): a successful `loadSource` stores the new source and fills
the target dimensions with its native dimensions, but leaves `quality`,
`format` and `aspectLocked` at their prior values; it does not itself discard
the prior EncodedResult — the initial encode it triggers overwrites the
stored result when the encode capability succeeds and leaves the prior
result in place when it fails. After `reset()` (which restores quality 80 and
jpeg) a `loadSource` yields the same quality, format and target dimensions as
the very first load, while `aspectLocked` keeps whatever value it had
(neither `handleFile` nor `resetCompressor` writes it). -/
theorem loadSource_params_after_reset (encode : EncodeArgs → Option Blob)
    (s : State) (f : JsFile) (img : JsImage)
    (h : jsStartsWith "image/" f.mediaType = true) :
    ((handleFile encode s f img).1.originalFile = some f ∧
      (handleFile encode s f img).1.originalImage = some img ∧
      (handleFile encode s f img).1.quality = s.quality ∧
      (handleFile encode s f img).1.outputFormat = s.outputFormat ∧
      (handleFile encode s f img).1.lockAspectRatio = s.lockAspectRatio ∧
      (handleFile encode s f img).1.widthInput = toString img.width ∧
      (handleFile encode s f img).1.heightInput = toString img.height) ∧
    ((∀ b : Blob,
        encode (encodeArgsOf
          { s with
            originalFile := some f
            originalImage := some img
            aspectRatio := (img.width : ℚ) / img.height
            widthInput := toString img.width
            heightInput := toString img.height } img) = some b →
        (handleFile encode s f img).1.compressedBlob = some b) ∧
      (encode (encodeArgsOf
          { s with
            originalFile := some f
            originalImage := some img
            aspectRatio := (img.width : ℚ) / img.height
            widthInput := toString img.width
            heightInput := toString img.height } img) = none →
        (handleFile encode s f img).1.compressedBlob = s.compressedBlob)) ∧
    ((handleFile encode (resetCompressor s) f img).1.quality = 80 ∧
      (handleFile encode (resetCompressor s) f img).1.outputFormat = "image/jpeg" ∧
      (handleFile encode (resetCompressor s) f img).1.quality
          = (handleFile encode initialState f img).1.quality ∧
      (handleFile encode (resetCompressor s) f img).1.outputFormat
          = (handleFile encode initialState f img).1.outputFormat ∧
      (handleFile encode (resetCompressor s) f img).1.widthInput
          = (handleFile encode initialState f img).1.widthInput ∧
      (handleFile encode (resetCompressor s) f img).1.heightInput
          = (handleFile encode initialState f img).1.heightInput ∧
      (handleFile encode (resetCompressor s) f img).1.lockAspectRatio
          = s.lockAspectRatio) := by
  have hbr : ∀ t : State, (handleFile encode t f img).1
      = (compressImage encode
          { t with
            originalFile := some f
            originalImage := some img
            aspectRatio := (img.width : ℚ) / img.height
            widthInput := toString img.width
            heightInput := toString img.height }).1 := by
    intro t
    unfold handleFile
    rw [if_neg (by simp [h])]
  refine ⟨?_, ⟨?_, ?_⟩, ?_⟩
  · refine ⟨?_, ?_, ?_, ?_, ?_, ?_, ?_⟩ <;>
      simp [hbr, compressImage_originalFile, compressImage_originalImage,
        compressImage_quality, compressImage_outputFormat, compressImage_lock,
        compressImage_widthInput, compressImage_heightInput]
  · intro b he
    rw [hbr s]
    simp [compressImage, he]
  · intro he
    rw [hbr s]
    simp [compressImage, he]
  · refine ⟨?_, ?_, ?_, ?_, ?_, ?_, ?_⟩ <;>
      simp [hbr, compressImage_quality, compressImage_outputFormat,
        compressImage_lock, compressImage_widthInput, compressImage_heightInput,
        resetCompressor, initialState]

/-- C3 witness: the amended theorem at a concrete image file and session —
quality survives the load, the succeeding encode overwrites the stored blob,
and after a reset the load yields quality 80. -/
theorem loadSource_params_after_reset_witness :
    (handleFile someEncode webpPriorState newImageFile
        { width := 20, height := 20 }).1.quality = webpPriorState.quality ∧
      (handleFile someEncode webpPriorState newImageFile
        { width := 20, height := 20 }).1.compressedBlob = some { size := 123456 } ∧
      (handleFile someEncode (resetCompressor webpPriorState) newImageFile
        { width := 20, height := 20 }).1.quality = 80 :=
  ⟨(loadSource_params_after_reset someEncode webpPriorState newImageFile
      { width := 20, height := 20 } (by decide)).1.2.2.1,
   (loadSource_params_after_reset someEncode webpPriorState newImageFile
      { width := 20, height := 20 } (by decide)).2.1.1 { size := 123456 } rfl,
   (loadSource_params_after_reset someEncode webpPriorState newImageFile
      { width := 20, height := 20 } (by decide)).2.2.1⟩

/-- A loaded 800×600 image with `-100` typed into the width field, for the
C8 counterexample. -/
def negWidthState : State :=
  { initialState with
      originalFile := some { mediaType := "image/jpeg", size := 100, name := "n.jpg" }
      originalImage := some { width := 800, height := 600 }
      aspectRatio := ((800 : ℕ) : ℚ) / ((600 : ℕ) : ℚ)
      widthInput := "-100"
      heightInput := "600" }

/-- C8 counterexample: the width input `-100` is numeric and truthy, so
`parseInt(v) || img.width` keeps `-100`: a negative (non-positive) dimension
input is NOT normalized to the source width 800, contradicting the claim. -/
theorem negative_width_not_normalized :
    jsParseInt "-100" = some (-100) ∧
      (encodeArgsOf negWidthState { width := 800, height := 600 }).width = -100 ∧
      ((-100 : ℤ) ≠ 800) := by
  refine ⟨by decide, ?_, by decide⟩
  show (encodeArgsOf negWidthState { width := 800, height := 600 }).width = -100
  decide

/-- C8 (amended): a dimension input that parses to `NaN` (non-numeric) or to
`0` is silently replaced by the corresponding source native dimension in the
arguments `compressImage` hands the encode capability, and no error is
surfaced; a nonzero parse — negative values included — is used as given. -/
theorem dimension_fallback_zero_or_nan (s : State) (img : JsImage)
    (h1 : s.originalImage = some img) :
    ((jsParseInt s.widthInput = none ∨ jsParseInt s.widthInput = some 0) →
        (encodeArgsOf s img).width = img.width) ∧
      (∀ n : ℤ, jsParseInt s.widthInput = some n → n ≠ 0 →
        (encodeArgsOf s img).width = n) ∧
      ((jsParseInt s.heightInput = none ∨ jsParseInt s.heightInput = some 0) →
        (encodeArgsOf s img).height = img.height) ∧
      (∀ n : ℤ, jsParseInt s.heightInput = some n → n ≠ 0 →
        (encodeArgsOf s img).height = n) := by
  refine ⟨?_, ?_, ?_, ?_⟩
  · rintro (hw | hw) <;> simp [encodeArgsOf, jsParseIntOr, hw]
  · intro n hw hn
    simp [encodeArgsOf, jsParseIntOr, hw, hn]
  · rintro (hh | hh) <;> simp [encodeArgsOf, jsParseIntOr, hh]
  · intro n hh hn
    simp [encodeArgsOf, jsParseIntOr, hh, hn]

/-- A loaded 5×5 image with an empty width field and `0` in the height
field, for the C8 witness. -/
def zeroDimState : State :=
  { initialState with
      originalFile := some { mediaType := "image/jpeg", size := 10, name := "z.jpg" }
      originalImage := some { width := 5, height := 5 }
      widthInput := ""
      heightInput := "0" }

/-- C8 witness: the theorem at a concrete state — an empty width field and a
zero height field both fall back to the native dimension 5. -/
theorem dimension_fallback_zero_or_nan_witness :
    (encodeArgsOf zeroDimState { width := 5, height := 5 }).width = (5 : ℤ) ∧
      (encodeArgsOf zeroDimState { width := 5, height := 5 }).height = (5 : ℤ) :=
  ⟨(dimension_fallback_zero_or_nan zeroDimState { width := 5, height := 5 } rfl).1
      (Or.inl (by decide)),
   (dimension_fallback_zero_or_nan zeroDimState { width := 5, height := 5 } rfl).2.2.1
      (Or.inr (by decide))⟩

end CompressIt
